import Mathlib

/-!
Verification development for the `ha_google_weather` polling coordinator
(`src/custom_components/google_weather/coordinator.py`, the API-key
smart-polling variant, plus the superseded OAuth variant
`src/coordinator.py` where its `_is_night_time` differs).

Modelling choices (shallow embedding):
* Wall-clock instants are natural numbers of seconds since an epoch; the
  Python `datetime.time()` projection is `now % 86400` (seconds since
  midnight).  Python `time` objects compare lexicographically by
  (hour, minute, second, microsecond), which coincides with the order on
  seconds-of-day.
* `(now - last_update).total_seconds() / 60 >= interval_minutes` is modelled
  exactly, denominator-cleared over `ℤ`; `c3_should_refresh_contract` proves
  it equivalent to the division form over `ℚ` (the concrete values exercised
  here are exact in binary floating point as well).
* JSON payloads are an inductive `Json` type; `dict.get(key, default)` is
  `Json.getD`.
* The four-endpoint dictionaries of the Python class are records with one
  field per endpoint (`EpMap`); the cache `self.endpoint_data` keys
  "current" / "daily_forecast" / "hourly_forecast" / "alerts" are in
  bijection with the endpoints, so the cache is an `EpMap (Option Json)`
  (`none` = key absent).
* Network I/O is an oracle `Endpoint → FetchResult` giving each endpoint's
  `requests.get` outcome for the tick: a JSON body, an HTTP status error
  (`raise_for_status`), or a transport error (`requests.RequestException`).
* Exceptions are `Except`: `PyErr` for exceptions inside
  `_fetch_weather_data`'s `try`, `UpdateErr` for `UpdateFailed` surfaced to
  the Home Assistant scheduler.
-/

/-- The four logical endpoints (`ENDPOINT_CURRENT/DAILY/HOURLY/ALERTS`). -/
inductive Endpoint where
  | current
  | daily
  | hourly
  | alerts
deriving DecidableEq, Repr

/-- A per-endpoint table, standing for the Python dicts keyed by the four
endpoint constants. -/
structure EpMap (α : Type) where
  current : α
  daily : α
  hourly : α
  alerts : α
deriving DecidableEq, Repr

def EpMap.get {α : Type} (m : EpMap α) : Endpoint → α
  | .current => m.current
  | .daily => m.daily
  | .hourly => m.hourly
  | .alerts => m.alerts

/-- JSON values, as returned by `response.json()`. -/
inductive Json where
  | null
  | bool (b : Bool)
  | num (n : ℤ)
  | str (s : String)
  | arr (elems : List Json)
  | obj (fields : List (String × Json))

/-- Python `dict.get(key, default)` on a JSON object; a non-object has no
`get` (the code only applies it to decoded JSON objects). -/
def Json.getD (j : Json) (key : String) (dflt : Json) : Json :=
  match j with
  | .obj fields =>
    match fields.lookup key with
    | some v => v
    | none => dflt
  | _ => dflt

/-- Outcome of one `requests.get` call for one endpoint. -/
inductive FetchResult where
  | ok (body : Json)
  | httpError (status : ℕ)
  | netError

/-- Exceptions raised inside `_fetch_weather_data`'s `try` block:
`requests.HTTPError` (from `raise_for_status`) with its response status, or
another `requests.RequestException`. -/
inductive PyErr where
  | httpError (status : ℕ)
  | netError
deriving DecidableEq, Repr

/-- `UpdateFailed`, as surfaced to the Home Assistant scheduler. -/
inductive UpdateErr where
  | updateFailed (msg : String)
deriving DecidableEq, Repr

/-- Mutable per-endpoint state of `GoogleWeatherCoordinator`:
`self.last_update` (seconds since epoch, `none` = never fetched) and the
cache `self.endpoint_data` (`none` = key absent from the dict). -/
structure CoordState where
  lastUpdate : EpMap (Option ℕ)
  endpointData : EpMap (Option Json)

/-- Day/night interval pair for one endpoint, in minutes. -/
structure IntervalPair where
  day : ℕ
  night : ℕ
deriving DecidableEq, Repr

/-- Configuration read in `__init__`: night-window strings and the
per-endpoint interval pairs. -/
structure Config where
  nightStart : String
  nightEnd : String
  intervals : EpMap IntervalPair
deriving DecidableEq, Repr

/-- Split a character list at `:` separators (the behaviour of
`s.split(":")` on the window strings). -/
def splitColon : List Char → List (List Char)
  | [] => [[]]
  | c :: cs =>
    let rest := splitColon cs
    if c = ':' then [] :: rest
    else
      match rest with
      | [] => [[c]]
      | r :: rs => (c :: r) :: rs

def parseDigitsAux : List Char → ℕ → Option ℕ
  | [], acc => some acc
  | c :: cs, acc =>
    if c.isDigit then parseDigitsAux cs (acc * 10 + (c.toNat - 48)) else none

/-- Python `int(field)` on one `HH`/`MM` field, restricted to plain decimal
digit strings (the inputs at issue); anything else raises `ValueError`. -/
def parseDigits (cs : List Char) : Option ℕ :=
  match cs with
  | [] => none
  | _ => parseDigitsAux cs 0

/-- Parse an `"HH:MM"` string into seconds-of-day.  Mirrors
`map(int, s.split(":"))` followed by `datetime.time(h, m)` validation in the
API-key variant, and `datetime.strptime(s, "%H:%M").time()` in the OAuth
variant: exactly two `:`-separated numeric fields, hour in 0..23, minute in
0..59, otherwise a `ValueError` (here `none`). -/
def parseTimeOfDay (s : String) : Option ℕ :=
  match splitColon s.toList with
  | [h, m] =>
    match parseDigits h, parseDigits m with
    | some hh, some mm =>
      if hh < 24 && mm < 60 then some (hh * 3600 + mm * 60) else none
    | _, _ => none
  | _ => none

/-- `_is_night_time` of the API-key variant
(`src/custom_components/google_weather/coordinator.py`, lines 112-129):
parse both window bounds (a parse failure propagates as an exception, hence
`none`), then
`if start_time < end_time: return start_time <= now < end_time
 else: return now >= start_time or now < end_time`.
`now` is seconds-of-day. -/
def isNightTimeCC (night_start night_end : String) (now : ℕ) : Option Bool :=
  match parseTimeOfDay night_start, parseTimeOfDay night_end with
  | some s, some e =>
    some (if s < e then decide (s ≤ now ∧ now < e) else decide (now ≥ s ∨ now < e))
  | _, _ => none

/-- Default night window of `const.py`: `DEFAULT_NIGHT_START = "22:00"`,
`DEFAULT_NIGHT_END = "06:00"`. -/
def DEFAULT_NIGHT_START : String := "22:00"

def DEFAULT_NIGHT_END : String := "06:00"

/-- `_is_night_time` of the OAuth variant (`src/coordinator.py`, lines
117-132): `strptime` both bounds inside `try`, on `ValueError` fall back to
the default window, then
`if night_start > night_end: return now >= night_start or now < night_end`
else `night_start <= now < night_end`. -/
def isNightTimeRoot (night_start night_end : String) (now : ℕ) : Bool :=
  let p : ℕ × ℕ :=
    match parseTimeOfDay night_start, parseTimeOfDay night_end with
    | some s, some e => (s, e)
    | _, _ =>
      ((parseTimeOfDay DEFAULT_NIGHT_START).getD 0,
       (parseTimeOfDay DEFAULT_NIGHT_END).getD 0)
  if p.1 > p.2 then decide (now ≥ p.1 ∨ now < p.2)
  else decide (p.1 ≤ now ∧ now < p.2)

/-- `_should_update_endpoint` (API-key variant, lines 131-145): `true` when
never updated; otherwise pick the day or night interval according to
`_is_night_time` (whose `ValueError` propagates, hence `none`) and compare
`(now - last_update).total_seconds() / 60 >= interval_minutes`.  The
comparison is recorded with the denominator cleared
(`interval * 60 ≤ now - last` over `ℤ`), which is exactly the source's
division form over `ℚ` since `60 > 0`; the equivalence with the literal
`((now - last) / 60 ≥ interval : ℚ)` reading is proved in
`c3_should_refresh_contract`. -/
def shouldUpdateEndpoint (cfg : Config) (st : CoordState) (now : ℕ)
    (ep : Endpoint) : Option Bool :=
  match st.lastUpdate.get ep with
  | none => some true
  | some last =>
    match isNightTimeCC cfg.nightStart cfg.nightEnd (now % 86400) with
    | none => none
    | some isNight =>
      let interval : ℕ :=
        if isNight then (cfg.intervals.get ep).night else (cfg.intervals.get ep).day
      some (decide (((interval : ℤ) * 60) ≤ (now : ℤ) - (last : ℤ)))

/-- The `endpoints_to_update` dict comprehension of `_async_update_data`
(lines 151-154); the first `ValueError` escaping `_should_update_endpoint`
aborts it (hence `none`). -/
def computeDue (cfg : Config) (st : CoordState) (now : ℕ) : Option (EpMap Bool) :=
  match shouldUpdateEndpoint cfg st now .current,
        shouldUpdateEndpoint cfg st now .daily,
        shouldUpdateEndpoint cfg st now .hourly,
        shouldUpdateEndpoint cfg st now .alerts with
  | some c, some d, some h, some a => some ⟨c, d, h, a⟩
  | _, _, _, _ => none

/-- `any(endpoints_to_update.values())`. -/
def anyDue (due : EpMap Bool) : Bool :=
  due.current || due.daily || due.hourly || due.alerts

/-- One guarded fetch for a non-alerts endpoint inside `_fetch_weather_data`:
skipped when not due; otherwise `requests.get` + `raise_for_status` +
response post-processing `extract` (identity for `current`, a `.get` with
list default for the forecasts). -/
def fetchOne (due : Bool) (r : FetchResult) (extract : Json → Json) :
    Except PyErr (Option Json) :=
  if due then
    match r with
    | .ok body => .ok (some (extract body))
    | .httpError s => .error (.httpError s)
    | .netError => .error .netError
  else .ok none

/-- The alerts fetch (lines 259-280): its own inner `try` catches
`requests.HTTPError` with status 404 and stores `[]`; any other `HTTPError`
is re-raised, and a transport error is not caught by the inner handler. -/
def fetchAlerts (due : Bool) (r : FetchResult) : Except PyErr (Option Json) :=
  if due then
    match r with
    | .ok body => .ok (some (Json.getD body "weatherAlerts" (Json.arr [])))
    | .httpError s =>
      if s = 404 then .ok (some (Json.arr []))
      else .error (.httpError s)
    | .netError => .error .netError
  else .ok none

/-- Body of `_fetch_weather_data`'s `try` (lines 197-282): the four
endpoints are attempted sequentially in the order current, daily, hourly,
alerts, accumulating `updated_data`; the first uncaught exception aborts the
rest and discards everything accumulated so far. -/
def fetchWeatherDataCore (due : EpMap Bool) (oracle : Endpoint → FetchResult) :
    Except PyErr (EpMap (Option Json)) :=
  match fetchOne due.current (oracle .current) id with
  | .error e => .error e
  | .ok c =>
    match fetchOne due.daily (oracle .daily)
        (fun b => Json.getD b "forecastDays" (Json.arr [])) with
    | .error e => .error e
    | .ok d =>
      match fetchOne due.hourly (oracle .hourly)
          (fun b => Json.getD b "forecastHours" (Json.arr [])) with
      | .error e => .error e
      | .ok h =>
        match fetchAlerts due.alerts (oracle .alerts) with
        | .error e => .error e
        | .ok a => .ok ⟨c, d, h, a⟩

/-- `_fetch_weather_data` (lines 192-291): the outer handlers turn an
`HTTPError` into `UpdateFailed` (with a credential message for 401/403) and
a transport error into `UpdateFailed` as well. -/
def fetchWeatherData (due : EpMap Bool) (oracle : Endpoint → FetchResult) :
    Except UpdateErr (EpMap (Option Json)) :=
  match fetchWeatherDataCore due oracle with
  | .ok m => .ok m
  | .error (.httpError s) =>
    if s = 401 ∨ s = 403 then
      .error (.updateFailed "Invalid API key or insufficient permissions")
    else .error (.updateFailed ("HTTP error: " ++ toString s))
  | .error .netError => .error (.updateFailed "Connection error")

/-- `self.endpoint_data.update(updated_data)` restricted to one key: the
fresh value wins when present, otherwise the cached one is kept. -/
def merge1 (old fresh : Option Json) : Option Json :=
  match fresh with
  | some v => some v
  | none => old

/-- `self.endpoint_data.update(updated_data)` over all four keys. -/
def mergeData (cache upd : EpMap (Option Json)) : EpMap (Option Json) :=
  ⟨merge1 cache.current upd.current,
   merge1 cache.daily upd.daily,
   merge1 cache.hourly upd.hourly,
   merge1 cache.alerts upd.alerts⟩

/-- `for endpoint in updating: self.last_update[endpoint] = now` — every due
endpoint is stamped with the one timestamp taken after the fetch. -/
def stampDue (last : EpMap (Option ℕ)) (due : EpMap Bool) (now : ℕ) :
    EpMap (Option ℕ) :=
  ⟨if due.current then some now else last.current,
   if due.daily then some now else last.daily,
   if due.hourly then some now else last.hourly,
   if due.alerts then some now else last.alerts⟩

/-- Truthiness of `self.endpoint_data` (`if self.endpoint_data:`): the dict
holds at least one key. -/
def cacheNonempty (st : CoordState) : Bool :=
  st.endpointData.current.isSome || st.endpointData.daily.isSome ||
  st.endpointData.hourly.isSome || st.endpointData.alerts.isSome

/-- `_async_update_data` (lines 147-190), one scheduler tick.  `now` is the
wall clock while staleness is evaluated, `stamp` the `dt_util.now()` taken
after the fetch returns (the code reads the clock again there).  Returns the
state after the tick and either the snapshot handed to the scheduler or the
propagated `UpdateFailed`.  Every exception inside the `try` (including a
night-window `ValueError` and any `UpdateFailed` from the fetch) reaches the
generic `except`, which returns the cache when non-empty and re-raises
`UpdateFailed` otherwise. -/
def tick (cfg : Config) (st : CoordState) (oracle : Endpoint → FetchResult)
    (now stamp : ℕ) : CoordState × Except UpdateErr (EpMap (Option Json)) :=
  match computeDue cfg st now with
  | none =>
    if cacheNonempty st then (st, .ok st.endpointData)
    else (st, .error (.updateFailed "Error communicating with API"))
  | some due =>
    if anyDue due then
      match fetchWeatherData due oracle with
      | .ok upd =>
        let data := mergeData st.endpointData upd
        ({ lastUpdate := stampDue st.lastUpdate due stamp, endpointData := data },
         .ok data)
      | .error _ =>
        if cacheNonempty st then (st, .ok st.endpointData)
        else (st, .error (.updateFailed "Error communicating with API"))
    else (st, .ok st.endpointData)

/-- A run of successive ticks: each list element supplies that tick's fetch
oracle, staleness-evaluation time and post-fetch stamp time. -/
def runTicks (cfg : Config) (st : CoordState) :
    List ((Endpoint → FetchResult) × ℕ × ℕ) → CoordState
  | [] => st
  | (o, n, s) :: rest => runTicks cfg (tick cfg st o n s).1 rest

/-- Default interval table of `const.py`. -/
def defaultIntervals : EpMap IntervalPair :=
  ⟨⟨15, 30⟩, ⟨30, 60⟩, ⟨20, 60⟩, ⟨15, 30⟩⟩

/-- Configuration with all defaults from `const.py`. -/
def cfg0 : Config := ⟨DEFAULT_NIGHT_START, DEFAULT_NIGHT_END, defaultIntervals⟩

/-! ### Shared lemmas about the embedded coordinator -/

theorem fetchOne_ok_isSome {r : FetchResult} {ex : Json → Json} {c : Option Json}
    (h : fetchOne true r ex = .ok c) : c.isSome = true := by
  cases r with
  | ok body => simp [fetchOne] at h; simp [← h]
  | httpError s => simp [fetchOne] at h
  | netError => simp [fetchOne] at h

theorem fetchAlerts_ok_isSome {r : FetchResult} {a : Option Json}
    (h : fetchAlerts true r = .ok a) : a.isSome = true := by
  cases r with
  | ok body => simp [fetchAlerts] at h; simp [← h]
  | httpError s =>
    by_cases h404 : s = 404
    · simp [fetchAlerts, h404] at h; simp [← h]
    · simp [fetchAlerts, h404] at h
  | netError => simp [fetchAlerts] at h

theorem fetchOne_not_due {r : FetchResult} {ex : Json → Json} :
    fetchOne false r ex = .ok none := by
  simp [fetchOne]

theorem core_ok_components {due : EpMap Bool} {oracle : Endpoint → FetchResult}
    {m : EpMap (Option Json)} (h : fetchWeatherDataCore due oracle = .ok m) :
    fetchOne due.current (oracle .current) id = .ok m.current ∧
    fetchOne due.daily (oracle .daily)
      (fun b => Json.getD b "forecastDays" (Json.arr [])) = .ok m.daily ∧
    fetchOne due.hourly (oracle .hourly)
      (fun b => Json.getD b "forecastHours" (Json.arr [])) = .ok m.hourly ∧
    fetchAlerts due.alerts (oracle .alerts) = .ok m.alerts := by
  unfold fetchWeatherDataCore at h
  cases h1 : fetchOne due.current (oracle .current) id with
  | error e => rw [h1] at h; exact absurd h (by simp)
  | ok c =>
    rw [h1] at h
    cases h2 : fetchOne due.daily (oracle .daily)
        (fun b => Json.getD b "forecastDays" (Json.arr [])) with
    | error e => rw [h2] at h; exact absurd h (by simp)
    | ok d =>
      rw [h2] at h
      cases h3 : fetchOne due.hourly (oracle .hourly)
          (fun b => Json.getD b "forecastHours" (Json.arr [])) with
      | error e => rw [h3] at h; exact absurd h (by simp)
      | ok hh =>
        rw [h3] at h
        cases h4 : fetchAlerts due.alerts (oracle .alerts) with
        | error e => rw [h4] at h; exact absurd h (by simp)
        | ok a =>
          rw [h4] at h
          simp only [Except.ok.injEq] at h
          subst h
          exact ⟨rfl, rfl, rfl, rfl⟩

theorem fetch_ok_core {due : EpMap Bool} {oracle : Endpoint → FetchResult}
    {m : EpMap (Option Json)} (h : fetchWeatherData due oracle = .ok m) :
    fetchWeatherDataCore due oracle = .ok m := by
  unfold fetchWeatherData at h
  cases hc : fetchWeatherDataCore due oracle with
  | ok m' => rw [hc] at h; simp only [Except.ok.injEq] at h; rw [h]
  | error e =>
    rw [hc] at h
    cases e with
    | httpError s =>
      by_cases hs : s = 401 ∨ s = 403 <;> simp [hs] at h
    | netError => simp at h

/-- A successful `_fetch_weather_data` produced a payload for every due
endpoint (no due endpoint is silently omitted from the result map). -/
theorem fetch_ok_due_isSome {due : EpMap Bool} {oracle : Endpoint → FetchResult}
    {m : EpMap (Option Json)} (h : fetchWeatherData due oracle = .ok m)
    (ep : Endpoint) (hdue : due.get ep = true) : (m.get ep).isSome = true := by
  obtain ⟨h1, h2, h3, h4⟩ := core_ok_components (fetch_ok_core h)
  cases ep with
  | current => rw [EpMap.get] at hdue ⊢; rw [hdue] at h1; exact fetchOne_ok_isSome h1
  | daily => rw [EpMap.get] at hdue ⊢; rw [hdue] at h2; exact fetchOne_ok_isSome h2
  | hourly => rw [EpMap.get] at hdue ⊢; rw [hdue] at h3; exact fetchOne_ok_isSome h3
  | alerts => rw [EpMap.get] at hdue ⊢; rw [hdue] at h4; exact fetchAlerts_ok_isSome h4

theorem anyDue_of_get {due : EpMap Bool} {ep : Endpoint}
    (h : due.get ep = true) : anyDue due = true := by
  cases ep <;> rw [EpMap.get] at h <;> simp [anyDue, h]

theorem merge1_isSome {old fresh : Option Json} (h : old.isSome = true) :
    (merge1 old fresh).isSome = true := by
  cases fresh <;> simp [merge1, h]

theorem mergeData_isSome {cache upd : EpMap (Option Json)} {ep : Endpoint}
    (h : (cache.get ep).isSome = true) :
    ((mergeData cache upd).get ep).isSome = true := by
  cases ep <;> exact merge1_isSome h

theorem merge1_none {old : Option Json} : merge1 old none = old := rfl

/-- Exhaustive characterization of one tick: either it hands back the
unchanged state with the cached snapshot, or it raises `UpdateFailed` with
the state unchanged (possible only with an empty cache), or the fetch
succeeded and cache and timestamps are merged/stamped. -/
theorem tick_cases (cfg : Config) (st : CoordState)
    (oracle : Endpoint → FetchResult) (now stamp : ℕ) :
    tick cfg st oracle now stamp = (st, .ok st.endpointData) ∨
    (tick cfg st oracle now stamp =
        (st, .error (.updateFailed "Error communicating with API")) ∧
      cacheNonempty st = false) ∨
    (∃ due upd, computeDue cfg st now = some due ∧ anyDue due = true ∧
      fetchWeatherData due oracle = .ok upd ∧
      tick cfg st oracle now stamp =
        ({ lastUpdate := stampDue st.lastUpdate due stamp,
           endpointData := mergeData st.endpointData upd },
         .ok (mergeData st.endpointData upd))) := by
  unfold tick
  split
  next hdue =>
    split
    next hc => left; rfl
    next hc => right; left; exact ⟨rfl, by simpa using hc⟩
  next due hdue =>
    split
    next hany =>
      split
      next upd hf => right; right; exact ⟨due, upd, hdue, hany, hf, rfl⟩
      next e hf =>
        split
        next hc => left; rfl
        next hc => right; left; exact ⟨rfl, by simpa using hc⟩
    next hany => left; rfl

/-- Any snapshot the tick hands to the scheduler is exactly the cache as it
stands after the tick. -/
theorem tick_snapshot_is_cache {cfg : Config} {st : CoordState}
    {oracle : Endpoint → FetchResult} {now stamp : ℕ} {snap : EpMap (Option Json)}
    (h : (tick cfg st oracle now stamp).2 = .ok snap) :
    snap = (tick cfg st oracle now stamp).1.endpointData := by
  rcases tick_cases cfg st oracle now stamp with heq | ⟨heq, _⟩ | ⟨due, upd, _, _, _, heq⟩ <;>
    rw [heq] at h ⊢ <;> simp at h ⊢ <;> simp [h]

/-- One tick never removes a cache key: a key present before is present
after, whatever the oracle does. -/
theorem tick_cache_mono {cfg : Config} {st : CoordState}
    {oracle : Endpoint → FetchResult} {now stamp : ℕ} {ep : Endpoint}
    (h : (st.endpointData.get ep).isSome = true) :
    ((tick cfg st oracle now stamp).1.endpointData.get ep).isSome = true := by
  rcases tick_cases cfg st oracle now stamp with heq | ⟨heq, _⟩ | ⟨due, upd, _, _, _, heq⟩ <;>
    rw [heq]
  · exact h
  · exact h
  · exact mergeData_isSome h

theorem fetch_error_updateFailed {due : EpMap Bool} {oracle : Endpoint → FetchResult}
    {e : PyErr} (h : fetchWeatherDataCore due oracle = .error e) :
    ∃ msg, fetchWeatherData due oracle = .error (.updateFailed msg) := by
  unfold fetchWeatherData
  rw [h]
  cases e with
  | httpError s => by_cases hs : s = 401 ∨ s = 403 <;> simp [hs]
  | netError => simp

theorem core_not_ok {due : EpMap Bool} {oracle : Endpoint → FetchResult}
    (h : ∀ m, fetchWeatherDataCore due oracle ≠ .ok m) :
    ∃ e, fetchWeatherDataCore due oracle = .error e := by
  cases hc : fetchWeatherDataCore due oracle with
  | ok m => exact absurd hc (h m)
  | error e => exact ⟨e, rfl⟩

/-- Behaviour of a tick whose fetch raised: stale cache when the cache is
non-empty, `UpdateFailed` otherwise, with the state untouched either way. -/
theorem tick_of_fetch_error {cfg : Config} {st : CoordState}
    {oracle : Endpoint → FetchResult} {now stamp : ℕ} {due : EpMap Bool} {e : UpdateErr}
    (hdue : computeDue cfg st now = some due) (hany : anyDue due = true)
    (hfail : fetchWeatherData due oracle = .error e) :
    (cacheNonempty st = true →
      tick cfg st oracle now stamp = (st, .ok st.endpointData)) ∧
    (cacheNonempty st = false →
      tick cfg st oracle now stamp =
        (st, .error (.updateFailed "Error communicating with API"))) := by
  constructor <;> intro hc <;> simp [tick, hdue, hany, hfail, hc]

/-! ### Concrete scenarios used by witnesses and counterexamples -/

/-- State with a cached current payload, `current` long stale, `daily` and
`hourly` fresh, `alerts` never fetched (at `now = 36000`, 10:00, daytime). -/
def c2St : CoordState :=
  ⟨⟨some 0, some 35940, some 35940, none⟩, ⟨some (Json.num 1), none, none, none⟩⟩

/-- The same endpoint timestamps with an empty cache. -/
def c2StEmpty : CoordState :=
  ⟨⟨some 0, some 35940, some 35940, none⟩, ⟨none, none, none, none⟩⟩

/-- A network outage: every call fails with a transport error. -/
def c2Oracle : Endpoint → FetchResult := fun _ => .netError

/-! ### Claims -/

/-- C2: Stale-cache fallback and cold-start propagation — for every tick
whose entire fetch attempt raises, a non-empty cache from before is returned
unchanged instead of the error, and if and only if no cached data exists the
error propagates to the caller as an update failure. -/
theorem c2_stale_cache_fallback (cfg : Config) (st : CoordState)
    (oracle : Endpoint → FetchResult) (now stamp : ℕ) (due : EpMap Bool) (e : UpdateErr)
    (hdue : computeDue cfg st now = some due)
    (hany : anyDue due = true)
    (hfail : fetchWeatherData due oracle = .error e) :
    (cacheNonempty st = true →
      tick cfg st oracle now stamp = (st, .ok st.endpointData)) ∧
    (cacheNonempty st = false →
      tick cfg st oracle now stamp =
        (st, .error (.updateFailed "Error communicating with API"))) :=
  tick_of_fetch_error hdue hany hfail

/-- Witness for C2: with a cached current payload a total transport outage
returns the cache; from the same situation with an empty cache it raises. -/
theorem c2_witness :
    tick cfg0 c2St c2Oracle 36000 36000 = (c2St, .ok c2St.endpointData) ∧
    tick cfg0 c2StEmpty c2Oracle 36000 36000 =
      (c2StEmpty, .error (.updateFailed "Error communicating with API")) :=
  ⟨(c2_stale_cache_fallback cfg0 c2St c2Oracle 36000 36000 ⟨true, false, false, true⟩
      (.updateFailed "Connection error") (by decide) (by decide) rfl).1 (by decide),
   (c2_stale_cache_fallback cfg0 c2StEmpty c2Oracle 36000 36000 ⟨true, false, false, true⟩
      (.updateFailed "Connection error") (by decide) (by decide) rfl).2 (by decide)⟩

/-- State whose `current` endpoint was last fetched at `T = 43200` (12:00),
used for the C3 boundary instance. -/
def c3St : CoordState :=
  ⟨⟨some 43200, some 43200, some 43200, some 43200⟩, ⟨some (Json.num 1), none, none, none⟩⟩

/-- C3: Staleness evaluator contract — `should_refresh` is true
unconditionally when `last_fetch` is absent; otherwise it selects the night
or day interval according to the classifier and is true iff the elapsed
wall-clock minutes since `last_fetch` are at least that interval; in
particular with `last_fetch = T = 43200`, day interval 15 and a day
classification it is false at `T+14min` and true at `T+15min`. -/
theorem c3_should_refresh_contract (cfg : Config) (st : CoordState) (now : ℕ)
    (ep : Endpoint) :
    (st.lastUpdate.get ep = none → shouldUpdateEndpoint cfg st now ep = some true) ∧
    (∀ last isNight, st.lastUpdate.get ep = some last →
      isNightTimeCC cfg.nightStart cfg.nightEnd (now % 86400) = some isNight →
      (shouldUpdateEndpoint cfg st now ep = some true ↔
        (((if isNight then (cfg.intervals.get ep).night
           else (cfg.intervals.get ep).day) : ℚ) ≤ ((now : ℚ) - (last : ℚ)) / 60))) ∧
    (shouldUpdateEndpoint cfg0 c3St 44040 .current = some false ∧
     shouldUpdateEndpoint cfg0 c3St 44100 .current = some true) := by
  refine ⟨?_, ?_, by decide, by decide⟩
  · intro h
    unfold shouldUpdateEndpoint
    rw [h]
  · intro last isNight h1 h2
    unfold shouldUpdateEndpoint
    rw [h1, h2]
    simp only [Option.some.injEq, decide_eq_true_eq]
    constructor
    · intro h
      rw [le_div_iff₀ (by norm_num : (0 : ℚ) < 60)]
      exact_mod_cast h
    · intro h
      rw [le_div_iff₀ (by norm_num : (0 : ℚ) < 60)] at h
      exact_mod_cast h

/-- Witness for C3: applies the contract with `last_fetch` absent. -/
theorem c3_witness : shouldUpdateEndpoint cfg0 c2St 36000 .alerts = some true :=
  (c3_should_refresh_contract cfg0 c2St 36000 .alerts).1 rfl

/-- C4 counterexample: for the window `"06:00"-"06:00"` (start = end, so
`start <= end`) at noon, the claim's same-day rule says day
(`¬(start ≤ now < end)`), but the API-key `_is_night_time` takes the
crossing-midnight branch (its test is the strict `start < end`) and reports
night. -/
theorem c4_counterexample :
    isNightTimeCC "06:00" "06:00" 43200 = some true ∧
    parseTimeOfDay "06:00" = some 21600 ∧
    ¬(21600 ≤ 43200 ∧ 43200 < 21600) := by
  refine ⟨by decide, by decide, by decide⟩

/-- C4 amended: for every parsable window, the API-key classifier follows
the claimed rules only with the same-day branch restricted to the strict
`start < end`; when `start >= end` (including the degenerate `start = end`)
it uses the crossing-midnight rule.  The OAuth variant's classifier
(`src/coordinator.py`) satisfies the claim exactly as stated, branching on
`start > end`. -/
theorem c4_is_night_amended (ss es : String) (s e now : ℕ)
    (hs : parseTimeOfDay ss = some s) (he : parseTimeOfDay es = some e) :
    (s < e → isNightTimeCC ss es now = some (decide (s ≤ now ∧ now < e))) ∧
    (e ≤ s → isNightTimeCC ss es now = some (decide (now ≥ s ∨ now < e))) ∧
    (s ≤ e → isNightTimeRoot ss es now = decide (s ≤ now ∧ now < e)) ∧
    (e < s → isNightTimeRoot ss es now = decide (now ≥ s ∨ now < e)) := by
  refine ⟨?_, ?_, ?_, ?_⟩ <;> intro h
  · simp [isNightTimeCC, hs, he, h]
  · have h' : ¬s < e := Nat.not_lt.mpr h
    simp [isNightTimeCC, hs, he, h']
  · have h' : ¬e < s := Nat.not_lt.mpr h
    simp [isNightTimeRoot, hs, he, h']
  · simp [isNightTimeRoot, hs, he, h]

/-- Witness for C4's amended claim at the default window `22:00-06:00`
(crossing midnight) and `now` = noon. -/
theorem c4_witness :
    isNightTimeCC "22:00" "06:00" 43200 =
      some (decide (43200 ≥ 79200 ∨ 43200 < 21600)) ∧
    isNightTimeRoot "22:00" "06:00" 43200 =
      decide (43200 ≥ 79200 ∨ 43200 < 21600) :=
  ⟨(c4_is_night_amended "22:00" "06:00" 79200 21600 43200 (by decide) (by decide)).2.1
      (by decide),
   (c4_is_night_amended "22:00" "06:00" 79200 21600 43200 (by decide) (by decide)).2.2.2
      (by decide)⟩

/-- C7 counterexample: with the unparsable start string `"bad"` the API-key
`_is_night_time` does not fall back to any default window — the parse error
propagates (no verdict at all), while the OAuth variant's classifier would
have classified noon as day under the default `22:00-06:00` window. -/
theorem c7_counterexample :
    isNightTimeCC "bad" "06:00" 43200 = none ∧
    isNightTimeRoot "bad" "06:00" 43200 = false := by
  refine ⟨by decide, by decide⟩

/-- C7 amended: on any window with an unparsable bound, the OAuth variant's
classifier falls back to the fixed default window `22:00-06:00`
(classifying by the crossing-midnight rule with `start = 79200`,
`end = 21600`), while the API-key variant's classifier propagates the parse
error instead of classifying, sending the tick to the generic error path. -/
theorem c7_malformed_window_amended (ss es : String) (now : ℕ)
    (h : parseTimeOfDay ss = none ∨ parseTimeOfDay es = none) :
    isNightTimeRoot ss es now = decide (now ≥ 79200 ∨ now < 21600) ∧
    isNightTimeCC ss es now = none := by
  have hd1 : parseTimeOfDay DEFAULT_NIGHT_START = some 79200 := by decide
  have hd2 : parseTimeOfDay DEFAULT_NIGHT_END = some 21600 := by decide
  rcases h with h | h
  · constructor <;> simp [isNightTimeRoot, isNightTimeCC, h, hd1, hd2]
  · cases hss : parseTimeOfDay ss <;> constructor <;>
      simp [isNightTimeRoot, isNightTimeCC, h, hss, hd1, hd2]

/-- Witness for C7's amended claim at an unparsable start string and
midnight. -/
theorem c7_witness :
    isNightTimeRoot "bad" "06:00" 0 = decide ((0 : ℕ) ≥ 79200 ∨ (0 : ℕ) < 21600) ∧
    isNightTimeCC "bad" "06:00" 0 = none :=
  c7_malformed_window_amended "bad" "06:00" 0 (Or.inl (by decide))

/-- C1 scenario: `current` (stale) and `alerts` (never fetched) are both due
at 10:00; the cache holds an old current payload `Json.num 1`. -/
def c1St : CoordState :=
  ⟨⟨some 0, some 35940, some 35940, none⟩, ⟨some (Json.num 1), none, none, none⟩⟩

/-- C1 oracle: the current-conditions call succeeds with a fresh payload,
the alerts call fails with a transport error. -/
def c1Oracle : Endpoint → FetchResult
  | .current => .ok (Json.num 2)
  | _ => .netError

/-- C1 counterexample: with `current` and `alerts` due, `current` succeeding
(fresh payload `Json.num 2`) and `alerts` failing, the tick does NOT include
the fresh current payload — the whole fetch is aborted and the snapshot
still carries the old `Json.num 1`, refuting per-endpoint failure
isolation. -/
theorem c1_counterexample :
    computeDue cfg0 c1St 36000 = some ⟨true, false, false, true⟩ ∧
    c1Oracle .current = .ok (Json.num 2) ∧
    tick cfg0 c1St c1Oracle 36000 36000 = (c1St, .ok c1St.endpointData) ∧
    c1St.endpointData.current = some (Json.num 1) ∧
    Json.num 1 ≠ Json.num 2 := by
  refine ⟨by decide, rfl, ?_, rfl, by simp⟩
  have hdue : computeDue cfg0 c1St 36000 = some ⟨true, false, false, true⟩ := by decide
  have hf : fetchWeatherData ⟨true, false, false, true⟩ c1Oracle =
      .error (.updateFailed "Connection error") := rfl
  exact (tick_of_fetch_error hdue (by decide) hf).1 rfl

/-- C1 amended: endpoint failures are not isolated — whenever ANY due
endpoint's call fails with a transport error or an HTTP error (with the one
exception of an alerts not-found 404), the whole `_fetch_weather_data`
raises `UpdateFailed`, returning no partial map at all (payloads fetched
earlier in the same tick are discarded, endpoints after the failing one are
not attempted); the scheduler still sees no exception when a non-empty
cache exists, receiving the prior cache unchanged, and sees an update
failure only when the cache is empty. -/
theorem c1_no_isolation_amended (cfg : Config) (st : CoordState)
    (oracle : Endpoint → FetchResult) (now stamp : ℕ) (due : EpMap Bool)
    (ep : Endpoint)
    (hdue : computeDue cfg st now = some due)
    (hep : due.get ep = true)
    (hfail : oracle ep = .netError ∨
      ∃ s, oracle ep = .httpError s ∧ (ep = .alerts → s ≠ 404)) :
    (∃ msg, fetchWeatherData due oracle = .error (.updateFailed msg)) ∧
    (cacheNonempty st = true →
      tick cfg st oracle now stamp = (st, .ok st.endpointData)) ∧
    (cacheNonempty st = false →
      tick cfg st oracle now stamp =
        (st, .error (.updateFailed "Error communicating with API"))) := by
  have hnok : ∀ m, fetchWeatherDataCore due oracle ≠ .ok m := by
    intro m hm
    obtain ⟨h1, h2, h3, h4⟩ := core_ok_components hm
    cases ep with
    | current =>
      rw [EpMap.get] at hep
      rw [hep] at h1
      rcases hfail with ho | ⟨s, ho, -⟩ <;> rw [ho] at h1 <;> simp [fetchOne] at h1
    | daily =>
      rw [EpMap.get] at hep
      rw [hep] at h2
      rcases hfail with ho | ⟨s, ho, -⟩ <;> rw [ho] at h2 <;> simp [fetchOne] at h2
    | hourly =>
      rw [EpMap.get] at hep
      rw [hep] at h3
      rcases hfail with ho | ⟨s, ho, -⟩ <;> rw [ho] at h3 <;> simp [fetchOne] at h3
    | alerts =>
      rw [EpMap.get] at hep
      rw [hep] at h4
      rcases hfail with ho | ⟨s, ho, h404⟩
      · rw [ho] at h4; simp [fetchAlerts] at h4
      · rw [ho] at h4; simp [fetchAlerts, h404 rfl] at h4
  obtain ⟨e, he⟩ := core_not_ok hnok
  obtain ⟨msg, hmsg⟩ := fetch_error_updateFailed he
  have hany : anyDue due = true := anyDue_of_get hep
  exact ⟨⟨msg, hmsg⟩, (tick_of_fetch_error hdue hany hmsg).1,
    (tick_of_fetch_error hdue hany hmsg).2⟩

/-- C1 witness oracle: the current-conditions call itself fails with an
HTTP 500 (a non-alerts endpoint, a non-transport error). -/
def c1Oracle500 : Endpoint → FetchResult
  | .current => .httpError 500
  | _ => .ok (Json.obj [])

/-- Witness for C1's amended claim: on the C1 state, `current` due and
failing with HTTP 500, the tick returns the prior cache unchanged. -/
theorem c1_witness :
    tick cfg0 c1St c1Oracle500 36000 36000 = (c1St, .ok c1St.endpointData) :=
  (c1_no_isolation_amended cfg0 c1St c1Oracle500 36000 36000
    ⟨true, false, false, true⟩ .current (by decide) rfl
    (Or.inr ⟨500, rfl, fun _ => by decide⟩)).2.1 (by decide)

/-- C6 scenario: every endpoint due (first tick), empty cache; the first
call fails with HTTP 401. -/
def c6St : CoordState :=
  ⟨⟨none, none, none, none⟩, ⟨none, none, none, none⟩⟩

/-- C6 oracle: the credential is invalid, every call returns HTTP 401. -/
def c6Oracle : Endpoint → FetchResult := fun _ => .httpError 401

/-- C6: Fatal credential failure — when any due endpoint's call fails with
HTTP 401 or 403, the entire tick's fetch is aborted (`_fetch_weather_data`
raises `UpdateFailed`, returning no partial map), and the tick surfaces an
update failure to the caller unless a non-empty cache exists, in which case
the stale cache is returned instead. -/
theorem c6_fatal_credential (cfg : Config) (st : CoordState)
    (oracle : Endpoint → FetchResult) (now stamp : ℕ) (due : EpMap Bool)
    (ep : Endpoint) (s : ℕ)
    (hdue : computeDue cfg st now = some due)
    (hep : due.get ep = true)
    (ho : oracle ep = .httpError s)
    (hs : s = 401 ∨ s = 403) :
    (∃ msg, fetchWeatherData due oracle = .error (.updateFailed msg)) ∧
    (cacheNonempty st = false →
      tick cfg st oracle now stamp =
        (st, .error (.updateFailed "Error communicating with API"))) ∧
    (cacheNonempty st = true →
      tick cfg st oracle now stamp = (st, .ok st.endpointData)) := by
  have hs404 : s ≠ 404 := by rcases hs with h | h <;> omega
  have hnok : ∀ m, fetchWeatherDataCore due oracle ≠ .ok m := by
    intro m hm
    obtain ⟨h1, h2, h3, h4⟩ := core_ok_components hm
    cases ep with
    | current => rw [EpMap.get] at hep; rw [hep, ho] at h1; simp [fetchOne] at h1
    | daily => rw [EpMap.get] at hep; rw [hep, ho] at h2; simp [fetchOne] at h2
    | hourly => rw [EpMap.get] at hep; rw [hep, ho] at h3; simp [fetchOne] at h3
    | alerts =>
      rw [EpMap.get] at hep; rw [hep, ho] at h4; simp [fetchAlerts, hs404] at h4
  obtain ⟨e, he⟩ := core_not_ok hnok
  obtain ⟨msg, hmsg⟩ := fetch_error_updateFailed he
  have hany : anyDue due = true := anyDue_of_get hep
  exact ⟨⟨msg, hmsg⟩, (tick_of_fetch_error hdue hany hmsg).2,
    (tick_of_fetch_error hdue hany hmsg).1⟩

/-- Witness for C6 at the concrete scenario: cold start with an invalid key
raises an update failure. -/
theorem c6_witness :
    tick cfg0 c6St c6Oracle 36000 36000 =
      (c6St, .error (.updateFailed "Error communicating with API")) :=
  (c6_fatal_credential cfg0 c6St c6Oracle 36000 36000 ⟨true, true, true, true⟩
    .current 401 (by decide) rfl rfl (Or.inl rfl)).2.1 (by decide)

/-- C8 scenario: nothing due (all endpoints freshly stamped 10 s ago), cache
holding one payload. -/
def c8St : CoordState :=
  ⟨⟨some 35990, some 35990, some 35990, some 35990⟩,
   ⟨some (Json.num 5), none, none, none⟩⟩

/-- C8 oracle (never reached: nothing is due). -/
def c8Oracle : Endpoint → FetchResult := fun _ => .netError

/-- C8: Reconciliation idempotence and frame condition — merging an empty
partial payload map leaves the cache identical; a tick with no due endpoint
returns the prior cache as snapshot with the state untouched; and on any
tick whose fetch succeeded, every endpoint absent from the result map keeps
both its cached payload and its `last_fetch` unchanged. -/
theorem c8_reconcile_frame (cfg : Config) (st : CoordState)
    (oracle : Endpoint → FetchResult) (now stamp : ℕ) :
    mergeData st.endpointData ⟨none, none, none, none⟩ = st.endpointData ∧
    (∀ due, computeDue cfg st now = some due → anyDue due = false →
      tick cfg st oracle now stamp = (st, .ok st.endpointData)) ∧
    (∀ due m, computeDue cfg st now = some due →
      fetchWeatherData due oracle = .ok m →
      ∀ ep, m.get ep = none →
        (tick cfg st oracle now stamp).1.endpointData.get ep =
          st.endpointData.get ep ∧
        (tick cfg st oracle now stamp).1.lastUpdate.get ep =
          st.lastUpdate.get ep) := by
  refine ⟨rfl, ?_, ?_⟩
  · intro due h1 h2
    simp [tick, h1, h2]
  · intro due m h1 hf ep hm
    have hdf : due.get ep = false := by
      cases hb : due.get ep with
      | false => rfl
      | true =>
        have := fetch_ok_due_isSome hf ep hb
        rw [hm] at this
        exact absurd this (by simp)
    by_cases hany : anyDue due = true
    · have htick : tick cfg st oracle now stamp =
          ({ lastUpdate := stampDue st.lastUpdate due stamp,
             endpointData := mergeData st.endpointData m },
           .ok (mergeData st.endpointData m)) := by
        simp [tick, h1, hany, hf]
      rw [htick]
      constructor
      · cases ep <;> rw [EpMap.get] at hm ⊢ <;>
          simp [mergeData, merge1, hm] <;> rfl
      · cases ep <;> rw [EpMap.get] at hdf <;>
          simp [stampDue, EpMap.get, hdf]
    · have hany' : anyDue due = false := by simpa using hany
      simp [tick, h1, hany']

/-- Witness for C8: a tick with no endpoint due returns the exact prior
cache with the state unchanged. -/
theorem c8_witness :
    tick cfg0 c8St c8Oracle 36000 36000 = (c8St, .ok c8St.endpointData) :=
  (c8_reconcile_frame cfg0 c8St c8Oracle 36000 36000).2.1
    ⟨false, false, false, false⟩ (by decide) (by decide)

theorem runTicks_cache_mono (cfg : Config) (ep : Endpoint) :
    ∀ (ticks : List ((Endpoint → FetchResult) × ℕ × ℕ)) (st : CoordState),
      (st.endpointData.get ep).isSome = true →
      ((runTicks cfg st ticks).endpointData.get ep).isSome = true := by
  intro ticks
  induction ticks with
  | nil => intro st h; exact h
  | cons t rest ih =>
    intro st h
    obtain ⟨o, n, s⟩ := t
    exact ih _ (tick_cache_mono h)

/-- C9 scenario: a cache holding a current payload. -/
def c9St : CoordState :=
  ⟨⟨some 0, none, none, none⟩, ⟨some (Json.num 7), none, none, none⟩⟩

/-- C9 oracle for the single executed tick. -/
def c9Oracle : Endpoint → FetchResult := fun _ => .ok (Json.obj [])

/-- C9: Implicit cache-key monotonicity — a key present in the cache is
still present after any sequence of ticks, and every snapshot a tick of the
sequence returns (the reconciler only merges, every return path returns the
full cache) contains that key. -/
theorem c9_cache_key_monotone (cfg : Config) (st : CoordState)
    (ticks : List ((Endpoint → FetchResult) × ℕ × ℕ)) (ep : Endpoint)
    (h : (st.endpointData.get ep).isSome = true) :
    ((runTicks cfg st ticks).endpointData.get ep).isSome = true ∧
    (∀ pre o n s post, ticks = pre ++ (o, n, s) :: post →
      ∀ snap, (tick cfg (runTicks cfg st pre) o n s).2 = .ok snap →
        (snap.get ep).isSome = true) := by
  refine ⟨runTicks_cache_mono cfg ep ticks st h, ?_⟩
  intro pre o n s post heq snap hsnap
  have hpre : ((runTicks cfg st pre).endpointData.get ep).isSome = true :=
    runTicks_cache_mono cfg ep pre st h
  rw [tick_snapshot_is_cache hsnap]
  exact tick_cache_mono hpre

/-- Witness for C9: the `current` key survives a run of two ticks (one
succeeding, one failing). -/
theorem c9_witness :
    ((runTicks cfg0 c9St
        [(c9Oracle, 36000, 36000), (fun _ => .netError, 36060, 36060)]
      ).endpointData.get .current).isSome = true :=
  (c9_cache_key_monotone cfg0 c9St
    [(c9Oracle, 36000, 36000), (fun _ => .netError, 36060, 36060)]
    .current rfl).1

